import Mathlib

set_option autoImplicit false

/-!
Verification development for the Telugu cinema monitoring application
(`src/app.py`, class `EnhancedTeluguCinemaMonitor`).

The Python code is shallowly embedded: pure helpers become Lean functions,
the PostgreSQL tables become lists of records, and the monitoring cycle
becomes a function from a monitor state (plus oracles for the external
search provider and the Telegram send outcome) to a new state and a cycle
summary.  Machine integers are modelled as `Nat`/`Int`; the Python float
ratio comparisons (`> 0.3`, `> 0.6`, `> 0.05`, `> 0.02`) are modelled as
exact rational comparisons over naturals (`10 * count > 3 * len`, ...),
which agrees with the float computation away from sub-ulp boundary cases
none of the statements below depend on.  Unicode-sensitive Python string
predicates (`str.isalnum`, `str.isupper`, regex `\w`, `\s`) are modelled
at the ASCII level, which is exact on every input used in the theorems.
-/

/-! ### Basic string helpers -/

/-- Lower-case a string character-wise (models Python `str.lower()` at the
ASCII level). -/
def lowerStr (s : String) : String := ⟨s.data.map Char.toLower⟩

/-- True when `a` is a prefix of `b` (on character lists). -/
def listIsPref : List Char → List Char → Bool
  | [], _ => true
  | _ :: _, [] => false
  | x :: xs, y :: ys => x == y && listIsPref xs ys

/-- True when `needle` occurs as a contiguous sublist of `hay`
(models the Python `in` operator on strings). -/
def listContainsSub (hay needle : List Char) : Bool :=
  listIsPref needle hay ||
    match hay with
    | [] => false
    | _ :: t => listContainsSub t needle

/-- String containment: `strContains hay needle` models Python
`needle in hay`. -/
def strContains (hay needle : String) : Bool :=
  listContainsSub hay.data needle.data

/-! ### Configuration constants (`CONFIG` defaults in `src/app.py`) -/

/-- `CONFIG['MAX_DAILY_QUOTA']` default. -/
def MAX_DAILY_QUOTA : Nat := 10000

/-- `CONFIG['AUTO_POST_THRESHOLD']` default. -/
def AUTO_POST_THRESHOLD : Int := 4

/-! ### Spam filter (`is_spam_content`) -/

/-- The `spam_keywords` denylist from `EnhancedTeluguCinemaMonitor.__init__`. -/
def spamKeywords : List String :=
  ["reaction", "roast", "troll", "funny", "comedy", "spoof",
   "remix", "mashup", "cover", "dubbing", "deleted scenes",
   "leaked", "pirated", "download", "free movie", "full movie",
   "whatsapp status", "ringtone", "bgm", "compilation"]

/-- Result of the Python spam predicate: either a boolean, or the
`ZeroDivisionError` raised when the title is empty and the ratio
computations divide by `len(title) = 0`. -/
inductive SpamResult where
  | ok : Bool → SpamResult
  | zeroDivisionError : SpamResult
deriving DecidableEq

/-- The combined lower-cased text `f"{title} {description} {channel_name}"`
used by `is_spam_content`. -/
def spamText (title description channelName : String) : String :=
  lowerStr title ++ " " ++ lowerStr description ++ " " ++ lowerStr channelName

/-- Models `is_spam_content(title, description, channel_name)`.  The keyword
check runs first; the two clickbait ratio checks divide by `len(title)` and
therefore raise `ZeroDivisionError` when the title is empty.  The float
comparisons `ratio > 0.3` and `ratio > 0.6` are the exact comparisons
`10 * count > 3 * len` and `10 * count > 6 * len`. -/
def isSpamContent (title description channelName : String) : SpamResult :=
  if spamKeywords.any (fun k => strContains (spamText title description channelName) k) then
    .ok true
  else if title.length == 0 then .zeroDivisionError
  else if 10 * title.data.countP (fun c => !c.isAlphanum && !c.isWhitespace) >
      3 * title.length then .ok true
  else if 10 * title.data.countP Char.isUpper > 6 * title.length then .ok true
  else .ok false

/-! ### Classifier (`content_categories`, `categorize_content`) -/

/-- One entry of the ordered `content_categories` dict. -/
structure CategoryRule where
  name : String
  keywords : List String
  priority : Nat
  autoPost : Bool
deriving DecidableEq

/-- The `content_categories` dict, in its (significant) insertion order. -/
def contentCategories : List CategoryRule :=
  [⟨"official_trailer", ["official trailer", "theatrical trailer"], 5, true⟩,
   ⟨"teaser", ["teaser", "first look", "title reveal"], 5, true⟩,
   ⟨"lyrical_video", ["lyrical video", "lyrical song", "video song"], 4, true⟩,
   ⟨"audio_launch", ["audio launch", "music launch", "pre release"], 4, true⟩,
   ⟨"movie_update", ["movie update", "shooting update", "latest update"], 3, false⟩,
   ⟨"box_office", ["box office", "collection", "day 1 collection"], 4, true⟩,
   ⟨"review", ["review", "rating", "public talk"], 3, false⟩,
   ⟨"interview", ["interview", "exclusive interview"], 2, false⟩,
   ⟨"behind_scenes", ["making", "behind the scenes", "bts"], 2, false⟩,
   ⟨"other", [], 1, false⟩]

/-- The combined lower-cased text used by `categorize_content`. -/
def categoryText (title description channelName : String) : String :=
  lowerStr title ++ " " ++ lowerStr description ++ " " ++ lowerStr channelName

/-- Models `categorize_content`: first category rule (in dict order) with a
keyword occurring in the combined lower-cased text wins; no match yields
`('other', 1, False)`. -/
def categorizeContent (title description channelName : String) :
    String × Nat × Bool :=
  match contentCategories.find? (fun r =>
      r.keywords.any (fun k =>
        strContains (categoryText title description channelName) k)) with
  | some r => (r.name, r.priority, r.autoPost)
  | none => ("other", 1, false)

/-! ### Source registry (`channel_whitelist`, `is_official_source`,
`add_channel_to_whitelist`) -/

/-- One row of the `channel_whitelist` table. -/
structure WhitelistEntry where
  channelId : String
  channelName : String
  priorityBoost : Int
  isVerified : Bool
deriving DecidableEq

/-- The `official_indicators` fallback list of `is_official_source`. -/
def officialIndicators : List String :=
  ["official", "music", "entertainment", "studios", "productions"]

/-- Models `is_official_source(channel_id, channel_name)`: first whitelist
row matching `channel_id = %s OR LOWER(channel_name) LIKE LOWER('%name%')`
wins; otherwise the trust-indicator substring fallback yields `(True, 1)`;
otherwise `(False, 0)`. -/
def isOfficialSource (wl : List WhitelistEntry) (channelId channelName : String) :
    Bool × Int :=
  match wl.find? (fun e =>
      e.channelId == channelId ||
      strContains (lowerStr e.channelName) (lowerStr channelName)) with
  | some e => (e.isVerified, e.priorityBoost)
  | none =>
    if officialIndicators.any (fun k => strContains (lowerStr channelName) k) then
      (true, 1)
    else (false, 0)

/-- Models `add_channel_to_whitelist`: `INSERT ... ON CONFLICT (channel_id)
DO UPDATE` upsert, always with `is_verified = TRUE`, returning the
structured `(success, reason)` pair. -/
def addChannelToWhitelist (wl : List WhitelistEntry)
    (channelId channelName : String) (priorityBoost : Int) :
    List WhitelistEntry × Bool × String :=
  if wl.any (fun e => e.channelId == channelId) then
    (wl.map (fun e =>
        if e.channelId == channelId then
          { e with channelName := channelName, priorityBoost := priorityBoost,
                   isVerified := true }
        else e),
     true, "Channel added to whitelist")
  else
    (wl ++ [⟨channelId, channelName, priorityBoost, true⟩],
     true, "Channel added to whitelist")

/-! ### Quality score (`calculate_content_quality_score`) -/

/-- The `quality_indicators` keyword list of
`calculate_content_quality_score`. -/
def qualityIndicators : List String :=
  ["official", "trailer", "teaser", "lyrical", "video song"]

/-- Models `calculate_content_quality_score`.  `ageSeconds` stands for
`(datetime.now() - published_at).total_seconds()`; the like-to-view float
thresholds `> 0.05` and `> 0.02` are the exact comparisons
`20 * likes > views` and `50 * likes > views`. -/
def calculateContentQualityScore (viewCount likeCount ageSeconds : Nat)
    (isOfficial : Bool) (title : String) : Nat :=
  let s1 := if viewCount > 1000000 then 3
            else if viewCount > 100000 then 2
            else if viewCount > 10000 then 1 else 0
  let s2 := if viewCount > 0 && likeCount > 0 then
              (if 20 * likeCount > viewCount then 2
               else if 50 * likeCount > viewCount then 1 else 0)
            else 0
  let s3 := if ageSeconds < 3600 then 3
            else if ageSeconds < 21600 then 2
            else if ageSeconds < 86400 then 1 else 0
  let s4 := if isOfficial then 2 else 0
  let s5 := if qualityIndicators.any (fun k => strContains (lowerStr title) k) then 1 else 0
  min (s1 + s2 + s3 + s4 + s5) 10

/-! ### MD5 (`hashlib.md5(...).hexdigest()`)

A byte-level implementation of MD5 over `List Nat` (each entry a byte),
all 32-bit arithmetic carried out in `Nat` modulo `2^32`. -/

/-- `2^32`, the 32-bit word modulus. -/
def M32 : Nat := 4294967296

/-- Bitwise complement on a 32-bit word. -/
def not32 (x : Nat) : Nat := (M32 - 1) - x % M32

/-- Left rotation of a 32-bit word by `s` bits. -/
def rotl32 (x s : Nat) : Nat :=
  ((x % M32) * 2 ^ s + (x % M32) / 2 ^ (32 - s)) % M32

/-- MD5 round function F. -/
def mdF (b c d : Nat) : Nat := Nat.lor (Nat.land b c) (Nat.land (not32 b) d)

/-- MD5 round function G. -/
def mdG (b c d : Nat) : Nat := Nat.lor (Nat.land b d) (Nat.land c (not32 d))

/-- MD5 round function H. -/
def mdH (b c d : Nat) : Nat := Nat.xor b (Nat.xor c d)

/-- MD5 round function I. -/
def mdI (b c d : Nat) : Nat := Nat.xor c (Nat.lor b (not32 d))

/-- The 64 MD5 sine-derived constants. -/
def md5K : List Nat :=
  [0xd76aa478, 0xe8c7b756, 0x242070db, 0xc1bdceee,
   0xf57c0faf, 0x4787c62a, 0xa8304613, 0xfd469501,
   0x698098d8, 0x8b44f7af, 0xffff5bb1, 0x895cd7be,
   0x6b901122, 0xfd987193, 0xa679438e, 0x49b40821,
   0xf61e2562, 0xc040b340, 0x265e5a51, 0xe9b6c7aa,
   0xd62f105d, 0x02441453, 0xd8a1e681, 0xe7d3fbc8,
   0x21e1cde6, 0xc33707d6, 0xf4d50d87, 0x455a14ed,
   0xa9e3e905, 0xfcefa3f8, 0x676f02d9, 0x8d2a4c8a,
   0xfffa3942, 0x8771f681, 0x6d9d6122, 0xfde5380c,
   0xa4beea44, 0x4bdecfa9, 0xf6bb4b60, 0xbebfbc70,
   0x289b7ec6, 0xeaa127fa, 0xd4ef3085, 0x04881d05,
   0xd9d4d039, 0xe6db99e5, 0x1fa27cf8, 0xc4ac5665,
   0xf4292244, 0x432aff97, 0xab9423a7, 0xfc93a039,
   0x655b59c3, 0x8f0ccc92, 0xffeff47d, 0x85845dd1,
   0x6fa87e4f, 0xfe2ce6e0, 0xa3014314, 0x4e0811a1,
   0xf7537e82, 0xbd3af235, 0x2ad7d2bb, 0xeb86d391]

/-- The 64 MD5 per-round shift amounts. -/
def md5S : List Nat :=
  [7, 12, 17, 22, 7, 12, 17, 22, 7, 12, 17, 22, 7, 12, 17, 22,
   5, 9, 14, 20, 5, 9, 14, 20, 5, 9, 14, 20, 5, 9, 14, 20,
   4, 11, 16, 23, 4, 11, 16, 23, 4, 11, 16, 23, 4, 11, 16, 23,
   6, 10, 15, 21, 6, 10, 15, 21, 6, 10, 15, 21, 6, 10, 15, 21]

/-- Pack a byte list into little-endian 32-bit words, four bytes per word
(the padded MD5 message length is always a multiple of four). -/
def leWords : List Nat → List Nat
  | b0 :: b1 :: b2 :: b3 :: rest =>
    (b0 + 256 * b1 + 65536 * b2 + 16777216 * b3) :: leWords rest
  | _ => []

/-- Split a word list into 16-word (64-byte) blocks (the padded MD5
message length is always a multiple of 16 words). -/
def chunkWords16 : List Nat → List (List Nat)
  | w0 :: w1 :: w2 :: w3 :: w4 :: w5 :: w6 :: w7 ::
      w8 :: w9 :: w10 :: w11 :: w12 :: w13 :: w14 :: w15 :: rest =>
    [w0, w1, w2, w3, w4, w5, w6, w7, w8, w9, w10, w11, w12, w13, w14, w15] ::
      chunkWords16 rest
  | _ => []

/-- One of the 64 MD5 operations, acting on the state `(a, b, c, d)` with
message words `m`. -/
def md5Step (m : List Nat) (st : Nat × Nat × Nat × Nat) (i : Nat) :
    Nat × Nat × Nat × Nat :=
  let f := if i < 16 then mdF st.2.1 st.2.2.1 st.2.2.2
           else if i < 32 then mdG st.2.1 st.2.2.1 st.2.2.2
           else if i < 48 then mdH st.2.1 st.2.2.1 st.2.2.2
           else mdI st.2.1 st.2.2.1 st.2.2.2
  let g := if i < 16 then i
           else if i < 32 then (5 * i + 1) % 16
           else if i < 48 then (3 * i + 5) % 16
           else (7 * i) % 16
  let f2 := (f + st.1 + md5K.getD i 0 + m.getD g 0) % M32
  (st.2.2.2, (st.2.1 + rotl32 f2 (md5S.getD i 0)) % M32, st.2.1, st.2.2.1)

/-- Process one 16-word (64-byte) chunk. -/
def md5Chunk (st : Nat × Nat × Nat × Nat) (m : List Nat) :
    Nat × Nat × Nat × Nat :=
  let r := (List.range 64).foldl (md5Step m) st
  ((st.1 + r.1) % M32, (st.2.1 + r.2.1) % M32,
   (st.2.2.1 + r.2.2.1) % M32, (st.2.2.2 + r.2.2.2) % M32)

/-- MD5 padding: a `0x80` byte, zeros up to 56 mod 64, then the 64-bit
little-endian bit length. -/
def md5Pad (msg : List Nat) : List Nat :=
  let bitLen := (msg.length * 8) % 2 ^ 64
  let padZeros := (119 - msg.length % 64) % 64
  msg ++ [128] ++ List.replicate padZeros 0 ++
    (List.range 8).map (fun i => bitLen / 2 ^ (8 * i) % 256)

/-- The MD5 initial state. -/
def md5Init : Nat × Nat × Nat × Nat :=
  (0x67452301, 0xefcdab89, 0x98badcfe, 0x10325476)

/-- Final MD5 state for a byte message. -/
def md5Final (msg : List Nat) : Nat × Nat × Nat × Nat :=
  (chunkWords16 (leWords (md5Pad msg))).foldl md5Chunk md5Init

/-- Little-endian byte serialization of a 32-bit word. -/
def leBytes4 (w : Nat) : List Nat :=
  [w % 256, w / 256 % 256, w / 65536 % 256, w / 16777216 % 256]

/-- The 16-byte MD5 digest of a byte message. -/
def md5Bytes (msg : List Nat) : List Nat :=
  leBytes4 (md5Final msg).1 ++ leBytes4 (md5Final msg).2.1 ++
  leBytes4 (md5Final msg).2.2.1 ++ leBytes4 (md5Final msg).2.2.2

/-- A single lower-case hexadecimal digit: code point 48 + n for digits,
87 + n (so 97, letter a, at 10) for the letter digits. -/
def hexChar (n : Nat) : Char :=
  if n < 10 then Char.ofNat (48 + n) else Char.ofNat (87 + n % 16)

/-- Two hex characters of one byte, high nibble first. -/
def byteToHex (b : Nat) : List Char := [hexChar (b / 16 % 16), hexChar (b % 16)]

/-- The 32-character hex digest, as produced by `hexdigest()`. -/
def md5Hex (msg : List Nat) : String :=
  ⟨((md5Bytes msg).map byteToHex).flatten⟩

/-- UTF-8 encoding of one code point (models Python `str.encode()`). -/
def utf8Encode (n : Nat) : List Nat :=
  if n < 128 then [n]
  else if n < 2048 then [192 + n / 64, 128 + n % 64]
  else if n < 65536 then [224 + n / 4096, 128 + n / 64 % 64, 128 + n % 64]
  else [240 + n / 262144, 128 + n / 4096 % 64, 128 + n / 64 % 64, 128 + n % 64]

/-- UTF-8 bytes of a string. -/
def strToBytes (s : String) : List Nat :=
  (s.data.map (fun c => utf8Encode c.toNat)).flatten

/-! ### Duplicate fingerprint (`generate_duplicate_hash`) -/

/-- A regex `\w` word character ("[A-Za-z0-9_]" at the ASCII level). -/
def isWordChar (c : Char) : Bool := c.isAlphanum || c == '_'

/-- Split a character list into maximal whitespace-free words, discarding
empty words (models Python `str.split()`). -/
def splitWsAux (acc : List Char) : List Char → List (List Char)
  | [] => if acc.isEmpty then [] else [acc.reverse]
  | c :: rest =>
    if c.isWhitespace then
      if acc.isEmpty then splitWsAux [] rest
      else acc.reverse :: splitWsAux [] rest
    else splitWsAux (c :: acc) rest

/-- Whitespace tokenization of a character list. -/
def splitWs (l : List Char) : List (List Char) := splitWsAux [] l

/-- Join words with single spaces (models `' '.flatten(...)`). -/
def joinWords : List (List Char) → List Char
  | [] => []
  | [w] => w
  | w :: ws => w ++ ' ' :: joinWords ws

/-- Title normalization of `generate_duplicate_hash`: lower-case, drop every
character that is neither a `\w` word character nor whitespace
(`re.sub(r'[^\w\s]', '', ...)`), then collapse whitespace runs. -/
def normalizeTitle (title : String) : String :=
  ⟨joinWords (splitWs ((lowerStr title).data.filter
      (fun c => isWordChar c || c.isWhitespace)))⟩

/-- Models `generate_duplicate_hash(title, channel_id)`:
`md5(f"{normalized_title}_{channel_id}".encode()).hexdigest()`. -/
def generateDuplicateHash (title channelId : String) : String :=
  md5Hex (strToBytes (normalizeTitle title ++ "_" ++ channelId))

/-! ### Pipeline data model -/

/-- One raw search result (the `item['snippet']` fields of
`process_video_item` together with the statistics returned by the
`videos().list(part='statistics')` call).  `ageSeconds` stands for
`(datetime.now() - published_at).total_seconds()` used by the quality
score; timestamp parsing is an external collaborator. -/
structure RawItem where
  videoId : String
  title : String
  channelTitle : String
  channelId : String
  publishedAt : String
  description : String
  thumbnail : String
  viewCount : Nat
  likeCount : Nat
  commentCount : Nat
  ageSeconds : Nat
deriving DecidableEq

/-- The `video_data` dict produced by `process_video_item`. -/
structure VideoData where
  id : String
  title : String
  channel : String
  channelId : String
  publishedAt : String
  description : String
  thumbnail : String
  videoUrl : String
  viewCount : Nat
  likeCount : Nat
  commentCount : Nat
  isOfficialSource : Bool
  category : String
  priority : Int
  autoPost : Bool
  contentQualityScore : Nat
  duplicateCheckHash : String
deriving DecidableEq

/-- One row of the `videos` table (`save_videos_to_db` insert columns plus
the boolean columns that default to `FALSE` and are later mutated by
`send_to_telegram` and `mark_as_spam`). -/
structure DbVideo where
  id : String
  title : String
  channel : String
  channelId : String
  publishedAt : String
  description : String
  thumbnail : String
  videoUrl : String
  viewCount : Nat
  likeCount : Nat
  commentCount : Nat
  category : String
  priority : Int
  isOfficialSource : Bool
  contentQualityScore : Nat
  sentToTelegram : Bool
  adminApproved : Bool
  autoPosted : Bool
  isSpam : Bool
  duplicateCheckHash : String
deriving DecidableEq

/-- One row of the `monitoring_stats` table (one record per day). -/
structure StatsRow where
  date : Nat
  videosFound : Nat
  autoPosted : Nat
  manualPosted : Nat
  apiCalls : Nat
  spamFiltered : Nat
  duplicatesFiltered : Nat
deriving DecidableEq

/-! ### Item processing (`process_video_item`) -/

/-- Models `process_video_item(item)` for an item whose statistics call
succeeds: spam items (and items whose spam check raises, which the
function's `try`/`except` converts to `None`) are dropped before the
statistics call, the official-source lookup, classification and scoring.
The final priority is `min(5, base_priority + priority_boost)` and
`auto_post` is `auto_post and final_priority >= AUTO_POST_THRESHOLD`. -/
def processVideoItem (wl : List WhitelistEntry) (item : RawItem) :
    Option VideoData :=
  match isSpamContent item.title item.description item.channelTitle with
  | .zeroDivisionError => none
  | .ok true => none
  | .ok false =>
    let off := isOfficialSource wl item.channelId item.channelTitle
    let cat := categorizeContent item.title item.description item.channelTitle
    let finalPriority : Int := min 5 ((cat.2.1 : Int) + off.2)
    some
      { id := item.videoId
        title := item.title
        channel := item.channelTitle
        channelId := item.channelId
        publishedAt := item.publishedAt
        description := item.description
        thumbnail := item.thumbnail
        videoUrl := "https://youtube.com/watch?v=" ++ item.videoId
        viewCount := item.viewCount
        likeCount := item.likeCount
        commentCount := item.commentCount
        isOfficialSource := off.1
        category := cat.1
        priority := finalPriority
        autoPost := cat.2.2 && decide (AUTO_POST_THRESHOLD ≤ finalPriority)
        contentQualityScore :=
          calculateContentQualityScore item.viewCount item.likeCount
            item.ageSeconds off.1 item.title
        duplicateCheckHash := generateDuplicateHash item.title item.channelId }

/-- The per-item quota cost inside `process_video_item`: the statistics call
adds 1 unit, and is only reached when the spam check returned `False`. -/
def itemCost (item : RawItem) : Nat :=
  match isSpamContent item.title item.description item.channelTitle with
  | .ok false => 1
  | _ => 0

/-! ### Batch deduplication and sorting
(`filter_and_deduplicate_videos`, the `sorted(...)` call of
`search_telugu_content`) -/

/-- Models `filter_and_deduplicate_videos`: keep the first video for each
`duplicate_check_hash`, in order. -/
def filterDedupAux : List VideoData → List String → List VideoData
  | [], _ => []
  | v :: rest, seen =>
    if seen.contains v.duplicateCheckHash then filterDedupAux rest seen
    else v :: filterDedupAux rest (v.duplicateCheckHash :: seen)

/-- `filter_and_deduplicate_videos(videos)` with an initially empty
`seen_hashes` set. -/
def filterAndDeduplicateVideos (videos : List VideoData) : List VideoData :=
  filterDedupAux videos []

/-- Strict comparison on the `(content_quality_score, priority)` sort key. -/
def videoKeyLt (v w : VideoData) : Bool :=
  v.contentQualityScore < w.contentQualityScore ||
    (v.contentQualityScore == w.contentQualityScore && v.priority < w.priority)

/-- Stable insertion for descending order: `v` goes in front of the first
element whose key is not strictly greater. -/
def insertByQuality (v : VideoData) : List VideoData → List VideoData
  | [] => [v]
  | w :: ws => if videoKeyLt v w then w :: insertByQuality v ws else v :: w :: ws

/-- Models `sorted(unique_videos, key=..., reverse=True)`: stable descending
sort by `(content_quality_score, priority)`. -/
def sortVideos : List VideoData → List VideoData
  | [] => []
  | v :: rest => insertByQuality v (sortVideos rest)

/-! ### Search (`search_telugu_content`) -/

/-- The `telugu_keywords` monitoring list from `__init__`. -/
def teluguKeywords : List String :=
  ["telugu movie trailer", "tollywood trailer", "telugu cinema trailer",
   "telugu movie teaser", "tollywood teaser", "telugu first look",
   "telugu movie songs", "tollywood songs", "telugu lyrical video",
   "telugu movie review", "tollywood review", "telugu box office",
   "telugu movie news", "tollywood news", "telugu cinema news",
   "prabhas new movie", "prabhas trailer", "prabhas teaser",
   "mahesh babu new movie", "mahesh babu trailer", "mahesh babu teaser",
   "ram charan new movie", "ram charan trailer", "ram charan teaser",
   "jr ntr new movie", "jr ntr trailer", "jr ntr teaser",
   "allu arjun new movie", "allu arjun trailer", "allu arjun teaser",
   "chiranjeevi new movie", "chiranjeevi trailer", "chiranjeevi teaser",
   "vijay deverakonda new movie", "vijay deverakonda trailer",
   "nani new movie", "nani trailer", "nani teaser",
   "ravi teja new movie", "ravi teja trailer", "ravi teja teaser"]

/-- `priority_keywords = self.telugu_keywords[:8]`. -/
def priorityKeywords : List String := teluguKeywords.take 8

/-- Result of `search_telugu_content`: the sorted deduplicated videos, the
quota cost consumed (100 per search call plus 1 per statistics call), and
the number of external API calls issued. -/
structure SearchOut where
  videos : List VideoData
  cost : Nat
  calls : Nat
deriving DecidableEq

/-- Models `search_telugu_content()`: one search call (cost 100) per
priority keyword, `process_video_item` on every returned raw item (whose
statistics call costs 1 unit when reached), then deduplication and the
quality sort.  `provider` is the external search collaborator, mapping a
keyword to its result page. -/
def searchTeluguContent (wl : List WhitelistEntry)
    (provider : String → List RawItem) : SearchOut :=
  let raw := (priorityKeywords.map provider).flatten
  let allVideos := raw.filterMap (processVideoItem wl)
  { videos := sortVideos (filterAndDeduplicateVideos allVideos)
    cost := 100 * priorityKeywords.length + (raw.map itemCost).sum
    calls := priorityKeywords.length + (raw.map itemCost).sum }

/-! ### Persistence (`save_videos_to_db`) -/

/-- The freshly inserted `videos` row for a processed video: the insert of
`save_videos_to_db` with the table defaults `sent_to_telegram = FALSE`,
`admin_approved = FALSE`, `auto_posted = FALSE`, `is_spam = FALSE`. -/
def insertRow (v : VideoData) : DbVideo :=
  { id := v.id, title := v.title, channel := v.channel,
    channelId := v.channelId, publishedAt := v.publishedAt,
    description := v.description, thumbnail := v.thumbnail,
    videoUrl := v.videoUrl, viewCount := v.viewCount,
    likeCount := v.likeCount, commentCount := v.commentCount,
    category := v.category, priority := v.priority,
    isOfficialSource := v.isOfficialSource,
    contentQualityScore := v.contentQualityScore,
    sentToTelegram := false, adminApproved := false, autoPosted := false,
    isSpam := false, duplicateCheckHash := v.duplicateCheckHash }

/-- Result of `save_videos_to_db`: the updated table and the list of newly
inserted videos. -/
structure SaveOut where
  db : List DbVideo
  newVideos : List VideoData
deriving DecidableEq

/-- Models `save_videos_to_db(videos)`: for each video in order, a
`SELECT id FROM videos WHERE id = %s` existence check (which sees the
inserts made earlier in the same transaction) decides between skipping and
inserting. -/
def saveVideosToDb : List DbVideo → List VideoData → SaveOut
  | db, [] => ⟨db, []⟩
  | db, v :: rest =>
    if db.any (fun r => r.id == v.id) then saveVideosToDb db rest
    else
      let out := saveVideosToDb (db ++ [insertRow v]) rest
      ⟨out.db, v :: out.newVideos⟩

/-! ### Notification (`send_to_telegram`) -/

/-- Models `send_to_telegram(video, is_auto)`.  `sendOk` is the external
Telegram collaborator (missing credentials and HTTP failures are its
`false` outcomes).  On success the video row is updated with
`sent_to_telegram = TRUE, auto_posted = is_auto, admin_approved = not
is_auto`; on failure nothing is written. -/
def sendToTelegram (sendOk : String → Bool) (db : List DbVideo)
    (videoId : String) (isAuto : Bool) : Bool × List DbVideo :=
  if sendOk videoId then
    (true,
     db.map (fun r =>
       if r.id == videoId then
         { r with sentToTelegram := true, autoPosted := isAuto,
                  adminApproved := !isAuto }
       else r))
  else (false, db)

/-! ### Statistics (`update_monitoring_stats`,
the manual counter update in `approve_and_send_video`) -/

/-- Models `update_monitoring_stats`: the
`INSERT ... ON CONFLICT (date) DO UPDATE` statement, which adds to every
counter of the day's row except `api_calls`, which it overwrites with
`EXCLUDED.api_calls` (the process-cumulative `self.api_quota_used`).
The table's DDL lacks a unique index on `date`; this models the
statement's date-keyed upsert semantics. -/
def updateMonitoringStats (stats : List StatsRow) (today : Nat)
    (videosFound autoPosted manualPosted apiCalls spamFiltered
     duplicatesFiltered : Nat) : List StatsRow :=
  if stats.any (fun r => r.date == today) then
    stats.map (fun r =>
      if r.date == today then
        { r with videosFound := r.videosFound + videosFound,
                 autoPosted := r.autoPosted + autoPosted,
                 manualPosted := r.manualPosted + manualPosted,
                 apiCalls := apiCalls,
                 spamFiltered := r.spamFiltered + spamFiltered,
                 duplicatesFiltered := r.duplicatesFiltered + duplicatesFiltered }
      else r)
  else
    stats ++ [⟨today, videosFound, autoPosted, manualPosted, apiCalls,
               spamFiltered, duplicatesFiltered⟩]

/-- The first `monitoring_stats` row for a date. -/
def statsFind (stats : List StatsRow) (date : Nat) : Option StatsRow :=
  stats.find? (fun r => r.date == date)

/-- Models the `UPDATE monitoring_stats SET manual_posted = manual_posted +
1 WHERE date = CURRENT_DATE` statement of `approve_and_send_video` (a plain
update: no row is created when none exists for the date). -/
def bumpManualPosted (stats : List StatsRow) (today : Nat) : List StatsRow :=
  stats.map (fun r =>
    if r.date == today then { r with manualPosted := r.manualPosted + 1 }
    else r)

/-! ### Monitoring cycle (`run_monitoring_cycle`) -/

/-- Models `video.get('is_spam', False)` in the dispatch loop of
`run_monitoring_cycle`: `process_video_item` never sets the `is_spam` key
on the dict it builds, so the lookup always yields `False`. -/
def videoIsSpamFlag (_ : VideoData) : Bool := false

/-- Result of the dispatch loop over the newly saved videos. -/
structure DispatchOut where
  db : List DbVideo
  attempts : List VideoData
  sent : List VideoData
  pendingManual : Nat
  spamFiltered : Nat
deriving DecidableEq

/-- The `for video in new_videos` loop of `run_monitoring_cycle`: skip
(and count) videos whose `is_spam` flag is set, attempt a Telegram send for
videos passing the auto-post gate, count the rest as pending manual. -/
def dispatchLoop (sendOk : String → Bool) (db : List DbVideo) :
    List VideoData → DispatchOut
  | [] => ⟨db, [], [], 0, 0⟩
  | v :: rest =>
    if videoIsSpamFlag v then
      let out := dispatchLoop sendOk db rest
      ⟨out.db, out.attempts, out.sent, out.pendingManual, out.spamFiltered + 1⟩
    else if decide (AUTO_POST_THRESHOLD ≤ v.priority) && v.autoPost then
      let s := sendToTelegram sendOk db v.id true
      let out := dispatchLoop sendOk s.2 rest
      ⟨out.db, v :: out.attempts, (if s.1 then v :: out.sent else out.sent),
       out.pendingManual, out.spamFiltered⟩
    else
      let out := dispatchLoop sendOk db rest
      ⟨out.db, out.attempts, out.sent, out.pendingManual + 1, out.spamFiltered⟩

/-- The monitor's mutable state: the `videos`, `monitoring_stats` and
`channel_whitelist` tables, `self.api_quota_used`, and
`self.last_quota_reset` (absent before the first cycle, modelled as
`none`). -/
structure MonitorState where
  db : List DbVideo
  stats : List StatsRow
  whitelist : List WhitelistEntry
  apiQuotaUsed : Nat
  lastQuotaReset : Option Nat
deriving DecidableEq

/-- Outcome of one `run_monitoring_cycle` invocation. -/
structure CycleResult where
  state : MonitorState
  dispatchAttempts : List VideoData
  autoSent : List VideoData
  pendingManual : Nat
  spamFilteredCount : Nat
  externalCalls : Nat
deriving DecidableEq

/-- `self.api_quota_used` after the day-rollover reset at the top of
`run_monitoring_cycle`. -/
def quotaAfterReset (today : Nat) (s : MonitorState) : Nat :=
  match s.lastQuotaReset with
  | some d => if d != today then 0 else s.apiQuotaUsed
  | none => s.apiQuotaUsed

/-- The body of `run_monitoring_cycle` after the quota gate passed:
search, save, dispatch, statistics update. -/
def cycleCore (today : Nat) (sendOk : String → Bool) (s : MonitorState)
    (sv : SearchOut) : CycleResult :=
  let quotaFinal := s.apiQuotaUsed + sv.cost
  let so := saveVideosToDb s.db sv.videos
  let dout := dispatchLoop sendOk so.db so.newVideos
  let spamFiltered := so.newVideos.countP videoIsSpamFlag
  let stats1 := updateMonitoringStats s.stats today sv.videos.length
      dout.sent.length 0 quotaFinal spamFiltered
      (sv.videos.length - so.newVideos.length)
  { state := { db := dout.db, stats := stats1, whitelist := s.whitelist,
               apiQuotaUsed := quotaFinal, lastQuotaReset := some today }
    dispatchAttempts := dout.attempts
    autoSent := dout.sent
    pendingManual := dout.pendingManual
    spamFilteredCount := spamFiltered
    externalCalls := sv.calls }

/-- Models `run_monitoring_cycle()`: daily quota reset, the
`api_quota_used >= MAX_DAILY_QUOTA` gate (skipping the whole cycle when it
fires), then search, save, dispatch and statistics. -/
def runMonitoringCycle (today : Nat) (provider : String → List RawItem)
    (sendOk : String → Bool) (s : MonitorState) : CycleResult :=
  if MAX_DAILY_QUOTA ≤ quotaAfterReset today s then
    { state := { s with apiQuotaUsed := quotaAfterReset today s,
                        lastQuotaReset := some today },
      dispatchAttempts := [], autoSent := [], pendingManual := 0,
      spamFilteredCount := 0, externalCalls := 0 }
  else
    cycleCore today sendOk
      { s with apiQuotaUsed := quotaAfterReset today s,
               lastQuotaReset := some today }
      (searchTeluguContent s.whitelist provider)

/-! ### Manual approval (`approve_and_send_video`) -/

/-- Result of `approve_and_send_video`: the two tables and the structured
`(success, reason)` pair returned to the caller. -/
structure ApproveOut where
  db : List DbVideo
  stats : List StatsRow
  success : Bool
  reason : String
deriving DecidableEq

/-- Models `approve_and_send_video(video_id)`: look the video up, send it
manually, bump the day's `manual_posted` counter only on success, and
return `(success, reason)` instead of raising. -/
def approveAndSendVideo (sendOk : String → Bool) (today : Nat)
    (db : List DbVideo) (stats : List StatsRow) (videoId : String) :
    ApproveOut :=
  match db.find? (fun r => r.id == videoId) with
  | none => ⟨db, stats, false, "Video not found"⟩
  | some _ =>
    let s := sendToTelegram sendOk db videoId false
    if s.1 then ⟨s.2, bumpManualPosted stats today, true, "Video sent successfully"⟩
    else ⟨s.2, stats, false, "Failed to send video"⟩

/-! ### Concrete instances used by witnesses and counterexamples -/

/-- A spam raw item: its title contains the denylist word "leaked". -/
def itemSpam0 : RawItem :=
  ⟨"vs1", "Movie Leaked Full Movie", "Some Channel", "cs1", "t0", "", "",
   10, 1, 0, 100000⟩

/-- A clean raw item classified `official_trailer`. -/
def itemTrailer0 : RawItem :=
  ⟨"vA", "Movie X Official Trailer", "Test Channel", "tc1", "t1",
   "", "", 150000, 9000, 10, 1800⟩

/-- A clean raw item with no category keyword (category `other`). -/
def itemOther0 : RawItem :=
  ⟨"vB", "hello world", "Some Channel", "chan1", "t2", "", "", 0, 0, 0,
   100000⟩

/-- A registry holding a negative boost for `chan1`, stored through
`add_channel_to_whitelist`. -/
def wlNeg : List WhitelistEntry :=
  (addChannelToWhitelist [] "chan1" "Some Channel" (-1)).1

/-- A fresh monitor state (empty tables, no quota used). -/
def st0 : MonitorState := ⟨[], [], [], 0, some 0⟩

/-- A monitor state one unit below the daily quota limit. -/
def stQ : MonitorState := ⟨[], [], [], 9999, some 0⟩

/-- A monitor state exactly at the daily quota limit. -/
def stMax : MonitorState := ⟨[], [], [], 10000, some 0⟩

/-- A provider returning the page `[r, r]` (a duplicated item) for the
first monitoring keyword and nothing for the others. -/
def provTwice (r : RawItem) : String → List RawItem := fun kw =>
  if kw == "telugu movie trailer" then [r, r] else []

/-- The duplicated-trailer provider used by concrete statements. -/
def provDup : String → List RawItem := provTwice itemTrailer0

/-- A provider returning the clean trailer item for every keyword. -/
def provTrailer : String → List RawItem := fun _ => [itemTrailer0]

/-- A provider returning only the spam item. -/
def provSpam : String → List RawItem := fun _ => [itemSpam0]

/-- A provider returning no items. -/
def provNone : String → List RawItem := fun _ => []

/-- A Telegram collaborator that always succeeds. -/
def sendAll : String → Bool := fun _ => true

/-- A Telegram collaborator that always fails. -/
def sendNone : String → Bool := fun _ => false

/-- A default video value for list indexing in witness statements. -/
def vd0 : VideoData :=
  ⟨"", "", "", "", "", "", "", "", 0, 0, 0, false, "other", 1, false, 0, ""⟩

/-- A persisted video row used by the manual-approval witness. -/
def dbRow0 : DbVideo :=
  ⟨"vm1", "Some Title", "Some Channel", "cm1", "t3", "", "", "u", 5, 1, 0,
   "other", 1, false, 0, false, false, false, false, "h"⟩

/-- A one-row stats table with `api_calls = 5` for day 0. -/
def stats5 : List StatsRow := [⟨0, 0, 0, 0, 5, 0, 0⟩]

/-- The primary-key column of the `videos` table. -/
def dbIds (db : List DbVideo) : List String := db.map (fun r => r.id)

/-! ## Theorems -/

/-! ### Generic helper lemmas about the embedded operations -/

theorem dbIds_any_iff (db : List DbVideo) (x : String) :
    (db.any (fun r => r.id == x) = true) ↔ x ∈ dbIds db := by
  simp [dbIds, List.any_eq_true]

theorem sendToTelegram_dbIds (sendOk : String → Bool) (db : List DbVideo)
    (videoId : String) (isAuto : Bool) :
    dbIds (sendToTelegram sendOk db videoId isAuto).2 = dbIds db := by
  unfold sendToTelegram
  split
  · simp only [dbIds, List.map_map]
    apply List.map_congr_left
    intro r _
    simp only [Function.comp_apply]
    split <;> rfl
  · rfl

theorem dispatchLoop_dbIds (sendOk : String → Bool) (db : List DbVideo)
    (l : List VideoData) : dbIds (dispatchLoop sendOk db l).db = dbIds db := by
  induction l generalizing db with
  | nil => rfl
  | cons v rest ih =>
    simp only [dispatchLoop, videoIsSpamFlag, Bool.false_eq_true, if_false]
    split
    · exact (ih _).trans (sendToTelegram_dbIds sendOk db v.id true)
    · exact ih db

theorem saveVideosToDb_dbIds_mono (db : List DbVideo) (vs : List VideoData)
    (x : String) (hx : x ∈ dbIds db) :
    x ∈ dbIds (saveVideosToDb db vs).db := by
  induction vs generalizing db with
  | nil => exact hx
  | cons v rest ih =>
    simp only [saveVideosToDb]
    split
    · exact ih db hx
    · refine ih (db ++ [insertRow v]) ?_
      simp only [dbIds, List.map_append] at hx ⊢
      exact List.mem_append_left _ hx

theorem saveVideosToDb_covers (db : List DbVideo) (vs : List VideoData)
    (v : VideoData) (hv : v ∈ vs) :
    v.id ∈ dbIds (saveVideosToDb db vs).db := by
  induction vs generalizing db with
  | nil => cases hv
  | cons w rest ih =>
    simp only [saveVideosToDb]
    rcases List.mem_cons.mp hv with h | h
    · subst h
      split
      · next hin =>
        exact saveVideosToDb_dbIds_mono db rest v.id ((dbIds_any_iff db v.id).mp hin)
      · exact saveVideosToDb_dbIds_mono _ rest v.id (by simp [dbIds, insertRow])
    · split
      · exact ih db h
      · exact ih _ h

theorem saveVideosToDb_noop (db : List DbVideo) (vs : List VideoData)
    (h : ∀ v ∈ vs, v.id ∈ dbIds db) : saveVideosToDb db vs = ⟨db, []⟩ := by
  induction vs with
  | nil => rfl
  | cons v rest ih =>
    have hv : db.any (fun r => r.id == v.id) = true :=
      (dbIds_any_iff db v.id).mpr (h v (List.mem_cons_self v rest))
    simp only [saveVideosToDb, hv, if_true]
    exact ih (fun w hw => h w (List.mem_cons_of_mem v hw))

theorem saveVideosToDb_nodup (db : List DbVideo) (vs : List VideoData)
    (h : (dbIds db).Nodup) : (dbIds (saveVideosToDb db vs).db).Nodup := by
  induction vs generalizing db with
  | nil => exact h
  | cons v rest ih =>
    simp only [saveVideosToDb]
    split
    · exact ih db h
    · next hin =>
      have hnot : v.id ∉ dbIds db := fun hmem =>
        hin ((dbIds_any_iff db v.id).mpr hmem)
      refine ih (db ++ [insertRow v]) ?_
      have hids : dbIds (db ++ [insertRow v]) = dbIds db ++ [v.id] := by
        simp [dbIds, insertRow]
      rw [hids, List.nodup_append]
      exact ⟨h, List.nodup_singleton _, fun x hx hx' => by
        rw [List.mem_singleton] at hx'
        exact hnot (hx' ▸ hx)⟩

theorem saveVideosToDb_newVideos_sub (db : List DbVideo) (vs : List VideoData)
    (v : VideoData) (hv : v ∈ (saveVideosToDb db vs).newVideos) : v ∈ vs := by
  induction vs generalizing db with
  | nil => cases hv
  | cons w rest ih =>
    simp only [saveVideosToDb] at hv
    split at hv
    · exact List.mem_cons_of_mem w (ih db hv)
    · rcases List.mem_cons.mp hv with h | h
      · exact h ▸ List.mem_cons_self w rest
      · exact List.mem_cons_of_mem w (ih _ h)

theorem mem_insertByQuality (v w : VideoData) (l : List VideoData) :
    w ∈ insertByQuality v l ↔ w = v ∨ w ∈ l := by
  induction l with
  | nil => simp [insertByQuality]
  | cons x xs ih =>
    simp only [insertByQuality]
    split <;> simp only [List.mem_cons, ih] <;> tauto

theorem mem_sortVideos (w : VideoData) (l : List VideoData) :
    w ∈ sortVideos l ↔ w ∈ l := by
  induction l with
  | nil => simp [sortVideos]
  | cons v rest ih =>
    simp only [sortVideos, mem_insertByQuality, ih, List.mem_cons]

theorem filterDedupAux_sub (l : List VideoData) (seen : List String)
    (w : VideoData) (hw : w ∈ filterDedupAux l seen) : w ∈ l := by
  induction l generalizing seen with
  | nil => cases hw
  | cons v rest ih =>
    simp only [filterDedupAux] at hw
    split at hw
    · exact List.mem_cons_of_mem v (ih _ hw)
    · rcases List.mem_cons.mp hw with h | h
      · exact h ▸ List.mem_cons_self v rest
      · exact List.mem_cons_of_mem v (ih _ h)

theorem dispatchLoop_attempts_spec (sendOk : String → Bool)
    (db : List DbVideo) (l : List VideoData) (w : VideoData)
    (hw : w ∈ (dispatchLoop sendOk db l).attempts) :
    w ∈ l ∧ (decide (AUTO_POST_THRESHOLD ≤ w.priority) && w.autoPost) = true := by
  induction l generalizing db with
  | nil => cases hw
  | cons v rest ih =>
    simp only [dispatchLoop, videoIsSpamFlag, Bool.false_eq_true, if_false] at hw
    split at hw
    · next hguard =>
      rcases List.mem_cons.mp hw with h | h
      · subst h
        exact ⟨List.mem_cons_self w rest, hguard⟩
      · obtain ⟨h1, h2⟩ := ih _ h
        exact ⟨List.mem_cons_of_mem v h1, h2⟩
    · obtain ⟨h1, h2⟩ := ih db hw
      exact ⟨List.mem_cons_of_mem v h1, h2⟩

theorem processVideoItem_fields (wl : List WhitelistEntry) (item : RawItem)
    (v : VideoData) (h : processVideoItem wl item = some v) :
    v.title = item.title ∧ v.description = item.description ∧
    v.channel = item.channelTitle ∧ v.id = item.videoId ∧
    v.autoPost = ((categorizeContent item.title item.description
        item.channelTitle).2.2 && decide (AUTO_POST_THRESHOLD ≤ v.priority)) ∧
    v.priority = min 5 (((categorizeContent item.title item.description
        item.channelTitle).2.1 : Int) +
        (isOfficialSource wl item.channelId item.channelTitle).2) := by
  unfold processVideoItem at h
  split at h
  · cases h
  · cases h
  · injection h with h
    subst h
    exact ⟨rfl, rfl, rfl, rfl, rfl, rfl⟩

theorem processVideoItem_spam_none (wl : List WhitelistEntry)
    (item : RawItem)
    (h : isSpamContent item.title item.description item.channelTitle =
        SpamResult.ok true) :
    processVideoItem wl item = none := by
  unfold processVideoItem
  rw [h]

theorem processVideoItem_some_not_spam (wl : List WhitelistEntry)
    (item : RawItem) (v : VideoData)
    (h : processVideoItem wl item = some v) :
    isSpamContent item.title item.description item.channelTitle =
      SpamResult.ok false := by
  unfold processVideoItem at h
  split at h
  · cases h
  · cases h
  · next heq => exact heq

theorem find?_map_id_pred {α : Type} (f : α → α) (p : α → Bool)
    (hp : ∀ x, p (f x) = p x) (l : List α) :
    (l.map f).find? p = (l.find? p).map f := by
  induction l with
  | nil => rfl
  | cons x xs ih =>
    simp only [List.map_cons, List.find?_cons]
    rw [hp x]
    cases hpx : p x
    · exact ih
    · rfl

theorem categorizeContent_base_bounds (title description channelName : String) :
    1 ≤ (categorizeContent title description channelName).2.1 ∧
      (categorizeContent title description channelName).2.1 ≤ 5 := by
  unfold categorizeContent
  split
  · next r hr =>
    have hmem : r ∈ contentCategories := List.mem_of_find?_eq_some hr
    have : ∀ c ∈ contentCategories, 1 ≤ c.priority ∧ c.priority ≤ 5 := by decide
    exact this r hmem
  · exact ⟨le_refl 1, by norm_num⟩

theorem isOfficialSource_boost_nonneg (wl : List WhitelistEntry)
    (channelId channelName : String)
    (hwl : ∀ e ∈ wl, 0 ≤ e.priorityBoost) :
    0 ≤ (isOfficialSource wl channelId channelName).2 := by
  unfold isOfficialSource
  split
  · next e he => exact hwl e (List.mem_of_find?_eq_some he)
  · split <;> norm_num

/-! ### C5 — scorer priority bounds -/

/-- Counterexample to claim C5: `add_channel_to_whitelist` accepts the
boost as a parameter and the registry can hold a negative boost; with the
boost `-1` registered for `chan1`, the item `itemOther0` (category `other`,
base priority 1) gets final priority `min(5, 1 + (-1)) = 0 < 1` — there is
no floor of 1 in `process_video_item`. -/
theorem C5_counterexample :
    (processVideoItem wlNeg itemOther0).map VideoData.priority = some 0 ∧
      ¬ (1 : Int) ≤ 0 := by
  constructor
  · decide
  · decide

/-- Claim C5 as amended: the final priority is `min(5, basePriority +
sourceBoost)` with no lower floor, so `priority ≤ 5` always holds, and
`1 ≤ priority` holds whenever every boost the registry holds is
non-negative (the category rules produce base priorities in `[1,5]`). -/
theorem C5_priority_bounds (wl : List WhitelistEntry) (item : RawItem)
    (v : VideoData) (hwl : ∀ e ∈ wl, 0 ≤ e.priorityBoost)
    (h : processVideoItem wl item = some v) :
    1 ≤ v.priority ∧ v.priority ≤ 5 := by
  obtain ⟨-, -, -, -, -, hpri⟩ := processVideoItem_fields wl item v h
  have hbase := categorizeContent_base_bounds item.title item.description
    item.channelTitle
  have hboost := isOfficialSource_boost_nonneg wl item.channelId
    item.channelTitle hwl
  rw [hpri]
  constructor
  · refine le_min (by norm_num) ?_
    have : (1 : Int) ≤ ((categorizeContent item.title item.description
        item.channelTitle).2.1 : Int) := by exact_mod_cast hbase.1
    omega
  · exact min_le_left _ _

set_option maxRecDepth 100000 in
/-- Witness for C5: a concrete whitelist with non-negative boosts and a
concrete item, with both bounds evaluated. -/
theorem C5_witness :
    1 ≤ ((processVideoItem [] itemTrailer0).getD vd0).priority ∧
      ((processVideoItem [] itemTrailer0).getD vd0).priority ≤ 5 := by
  have h := C5_priority_bounds [] itemTrailer0
    ((processVideoItem [] itemTrailer0).getD vd0)
    (by intro e he; cases he) (by decide)
  exact h

/-! ### C10 — spam predicate on the empty title -/

/-- Counterexample to claim C10: not every empty-title item raises — when
the combined text contains a denylist word the keyword check returns `True`
before the ratio divisions are reached. -/
theorem C10_counterexample :
    isSpamContent "" "leaked" "" = SpamResult.ok true := by decide

/-- Claim C10 as amended: for an empty title the ratio computations divide
by `len(title) = 0`, so the predicate raises `ZeroDivisionError` for every
empty-title item whose combined text contains no denylist substring. -/
theorem C10_empty_title (description channelName : String)
    (h : spamKeywords.any
        (fun k => strContains (spamText "" description channelName) k) = false) :
    isSpamContent "" description channelName = SpamResult.zeroDivisionError := by
  unfold isSpamContent
  rw [h]
  decide

/-- Witness for C10 at a concrete keyword-free item. -/
theorem C10_witness :
    isSpamContent "" "hello" "world" = SpamResult.zeroDivisionError :=
  C10_empty_title "hello" "world" (by decide)

/-! ### C8 — statistics upserts -/

/-- Counterexample to claim C8: with `api_calls = 5` stored for the day, a
`update_monitoring_stats` write carrying `api_quota_used = 3` leaves
`api_calls = 3`: the column is overwritten (`api_calls =
EXCLUDED.api_calls`), not added to (which would give 8); the write even
decreased the stored value. -/
theorem C8_counterexample :
    (statsFind (updateMonitoringStats stats5 0 0 0 0 3 0 0) 0).map
        StatsRow.apiCalls = some 3 ∧ (3 : Nat) ≠ 5 + 3 ∧ (3 : Nat) < 5 := by
  refine ⟨by decide, by decide, by decide⟩

/-- Claim C8 as amended: each `update_monitoring_stats` write adds to the
day's existing counters for items found, auto-published,
manually-published, spam-filtered and duplicate-filtered, but the API-cost
counter is overwritten with the (process-cumulative) value passed in; the
manual-publish counter written by `approve_and_send_video` is an additive
`+1` on the day's row. -/
theorem C8_stats_additive (stats : List StatsRow) (today : Nat)
    (f a m q sp du : Nat) (row : StatsRow)
    (h : statsFind stats today = some row) :
    statsFind (updateMonitoringStats stats today f a m q sp du) today =
      some { date := row.date, videosFound := row.videosFound + f,
             autoPosted := row.autoPosted + a,
             manualPosted := row.manualPosted + m, apiCalls := q,
             spamFiltered := row.spamFiltered + sp,
             duplicatesFiltered := row.duplicatesFiltered + du } ∧
    statsFind (bumpManualPosted stats today) today =
      some { row with manualPosted := row.manualPosted + 1 } := by
  have h' : stats.find? (fun r => r.date == today) = some row := h
  have hrowdate : (row.date == today) = true := by
    have hx := List.find?_some h'
    exact hx
  have hany : stats.any (fun r => r.date == today) = true :=
    List.any_eq_true.mpr ⟨row, List.mem_of_find?_eq_some h', hrowdate⟩
  constructor
  · show (updateMonitoringStats stats today f a m q sp du).find?
      (fun r => r.date == today) = _
    unfold updateMonitoringStats
    rw [if_pos hany,
        find?_map_id_pred _ _ (fun x => by cases hx : x.date == today <;> simp [hx])
          stats, h']
    have hdate : row.date = today := by simpa using hrowdate
    simp [hdate]
  · show (bumpManualPosted stats today).find? (fun r => r.date == today) = _
    unfold bumpManualPosted
    rw [find?_map_id_pred _ _ (fun x => by cases hx : x.date == today <;> simp [hx])
          stats, h']
    have hdate : row.date = today := by simpa using hrowdate
    simp [hdate]

/-- Witness for C8 at the concrete one-row table. -/
theorem C8_witness :
    statsFind (updateMonitoringStats stats5 0 2 1 0 7 3 4) 0 =
        some ⟨0, 2, 1, 0, 7, 3, 4⟩ ∧
      statsFind (bumpManualPosted stats5 0) 0 = some ⟨0, 0, 0, 1, 5, 0, 0⟩ := by
  have h := C8_stats_additive stats5 0 2 1 0 7 3 4 ⟨0, 0, 0, 0, 5, 0, 0⟩ (by decide)
  exact h

/-! ### C9 — manual approval -/

/-- Claim C9: `approve_and_send_video` marks the video as published only
when the Telegram send succeeds; on a failed send the `videos` table is
unchanged and the call reports failure; and the call always returns one of
the structured `(success, reason)` pairs instead of raising. -/
theorem C9_manual_publish (sendOk : String → Bool) (today : Nat)
    (db : List DbVideo) (stats : List StatsRow) (videoId : String) :
    ((approveAndSendVideo sendOk today db stats videoId).success = true →
        sendOk videoId = true ∧
        ((approveAndSendVideo sendOk today db stats videoId).db.find?
            (fun r => r.id == videoId)).map DbVideo.sentToTelegram = some true) ∧
    (sendOk videoId = false →
        (approveAndSendVideo sendOk today db stats videoId).db = db ∧
        (approveAndSendVideo sendOk today db stats videoId).success = false) ∧
    ((approveAndSendVideo sendOk today db stats videoId).reason =
        "Video sent successfully" ∨
      (approveAndSendVideo sendOk today db stats videoId).reason =
        "Video not found" ∨
      (approveAndSendVideo sendOk today db stats videoId).reason =
        "Failed to send video") := by
  cases hfind : db.find? (fun r => r.id == videoId) with
  | none =>
    have e : approveAndSendVideo sendOk today db stats videoId =
        ⟨db, stats, false, "Video not found"⟩ := by
      unfold approveAndSendVideo
      rw [hfind]
    rw [e]
    exact ⟨fun hsucc => Bool.noConfusion hsucc, fun _ => ⟨rfl, rfl⟩,
      Or.inr (Or.inl rfl)⟩
  | some row =>
    cases hok : sendOk videoId with
    | false =>
      have e : approveAndSendVideo sendOk today db stats videoId =
          ⟨db, stats, false, "Failed to send video"⟩ := by
        unfold approveAndSendVideo sendToTelegram
        rw [hfind, hok]
        rfl
      rw [e]
      exact ⟨fun hsucc => Bool.noConfusion hsucc, fun _ => ⟨rfl, rfl⟩,
        Or.inr (Or.inr rfl)⟩
    | true =>
      have e : approveAndSendVideo sendOk today db stats videoId =
          ⟨db.map (fun r =>
              if r.id == videoId then
                { r with sentToTelegram := true, autoPosted := false,
                         adminApproved := true }
              else r),
            bumpManualPosted stats today, true, "Video sent successfully"⟩ := by
        unfold approveAndSendVideo sendToTelegram
        rw [hfind, hok]
        rfl
      rw [e]
      refine ⟨fun _ => ⟨rfl, ?_⟩,
        fun hfail => absurd hfail (by decide), Or.inl rfl⟩
      rw [show (⟨db.map (fun r =>
              if r.id == videoId then
                { r with sentToTelegram := true, autoPosted := false,
                         adminApproved := true }
              else r),
            bumpManualPosted stats today, true,
            "Video sent successfully"⟩ : ApproveOut).db = db.map (fun r =>
              if r.id == videoId then
                { r with sentToTelegram := true, autoPosted := false,
                         adminApproved := true }
              else r) from rfl,
          find?_map_id_pred _ _ (fun x => by cases hx : x.id == videoId <;> simp [hx])
            db, hfind]
      have hrow : row.id = videoId := by
        have hx := List.find?_some hfind
        simpa using hx
      simp [hrow]

/-- Witness for C9: a failed send leaves the concrete one-row table
unchanged. -/
theorem C9_witness :
    (approveAndSendVideo sendNone 0 [dbRow0] [] "vm1").db = [dbRow0] ∧
      (approveAndSendVideo sendNone 0 [dbRow0] [] "vm1").success = false :=
  (C9_manual_publish sendNone 0 [dbRow0] [] "vm1").2.1 rfl

/-! ### Cycle-level helper lemmas -/

theorem quotaAfterReset_of_reset_today (today : Nat) (s : MonitorState)
    (h : s.lastQuotaReset = some today) :
    quotaAfterReset today s = s.apiQuotaUsed := by
  simp [quotaAfterReset, h]

theorem runCycle_split (today : Nat) (provider : String → List RawItem)
    (sendOk : String → Bool) (s : MonitorState) :
    (MAX_DAILY_QUOTA ≤ quotaAfterReset today s ∧
      runMonitoringCycle today provider sendOk s =
        { state := { s with apiQuotaUsed := quotaAfterReset today s,
                            lastQuotaReset := some today },
          dispatchAttempts := [], autoSent := [], pendingManual := 0,
          spamFilteredCount := 0, externalCalls := 0 }) ∨
    (¬ MAX_DAILY_QUOTA ≤ quotaAfterReset today s ∧
      runMonitoringCycle today provider sendOk s =
        cycleCore today sendOk
          { s with apiQuotaUsed := quotaAfterReset today s,
                   lastQuotaReset := some today }
          (searchTeluguContent s.whitelist provider)) := by
  unfold runMonitoringCycle
  split
  · next h => exact Or.inl ⟨h, rfl⟩
  · next h => exact Or.inr ⟨h, rfl⟩

theorem cycleCore_state_db (today : Nat) (sendOk : String → Bool)
    (s : MonitorState) (sv : SearchOut) :
    (cycleCore today sendOk s sv).state.db =
      (dispatchLoop sendOk (saveVideosToDb s.db sv.videos).db
        (saveVideosToDb s.db sv.videos).newVideos).db := rfl

theorem cycleCore_attempts (today : Nat) (sendOk : String → Bool)
    (s : MonitorState) (sv : SearchOut) :
    (cycleCore today sendOk s sv).dispatchAttempts =
      (dispatchLoop sendOk (saveVideosToDb s.db sv.videos).db
        (saveVideosToDb s.db sv.videos).newVideos).attempts := rfl

theorem cycleCore_whitelist (today : Nat) (sendOk : String → Bool)
    (s : MonitorState) (sv : SearchOut) :
    (cycleCore today sendOk s sv).state.whitelist = s.whitelist := rfl

theorem cycleCore_lastReset (today : Nat) (sendOk : String → Bool)
    (s : MonitorState) (sv : SearchOut) :
    (cycleCore today sendOk s sv).state.lastQuotaReset = some today := rfl

theorem searchTeluguContent_videos (wl : List WhitelistEntry)
    (provider : String → List RawItem) :
    (searchTeluguContent wl provider).videos =
      sortVideos (filterAndDeduplicateVideos
        (((priorityKeywords.map provider).flatten).filterMap
          (processVideoItem wl))) := rfl

theorem cycleCore_covers (today : Nat) (sendOk : String → Bool)
    (s : MonitorState) (sv : SearchOut) (v : VideoData) (hv : v ∈ sv.videos) :
    v.id ∈ dbIds (cycleCore today sendOk s sv).state.db := by
  rw [cycleCore_state_db, dispatchLoop_dbIds]
  exact saveVideosToDb_covers s.db sv.videos v hv

theorem cycleCore_nodup (today : Nat) (sendOk : String → Bool)
    (s : MonitorState) (sv : SearchOut) (h : (dbIds s.db).Nodup) :
    (dbIds (cycleCore today sendOk s sv).state.db).Nodup := by
  rw [cycleCore_state_db, dispatchLoop_dbIds]
  exact saveVideosToDb_nodup s.db sv.videos h

theorem cycleCore_noop (today : Nat) (sendOk : String → Bool)
    (s : MonitorState) (sv : SearchOut)
    (h : ∀ v ∈ sv.videos, v.id ∈ dbIds s.db) :
    (cycleCore today sendOk s sv).state.db = s.db ∧
      (cycleCore today sendOk s sv).dispatchAttempts = [] := by
  have hsave : saveVideosToDb s.db sv.videos = ⟨s.db, []⟩ :=
    saveVideosToDb_noop s.db sv.videos h
  constructor
  · rw [cycleCore_state_db, hsave]
    rfl
  · rw [cycleCore_attempts, hsave]
    rfl

/-! ### C2 — quota enforcement -/

/-- Counterexample to claim C2: the quota check happens only once per
cycle.  With `api_quota_used = 9999` (remaining budget 1, below the search
cost of 100), the cycle still issues all 8 search calls and drives
`api_quota_used` to 10799 — reservation does not fail closed per unit of
work. -/
theorem C2_counterexample :
    MAX_DAILY_QUOTA - stQ.apiQuotaUsed < 100 ∧
      (runMonitoringCycle 0 provNone sendNone stQ).externalCalls = 8 ∧
      (runMonitoringCycle 0 provNone sendNone stQ).state.apiQuotaUsed = 10799 := by
  refine ⟨by decide, by decide, by decide⟩

/-- Claim C2 as amended: when the (cycle-level) quota check denies — the
budget is already at or above `MAX_DAILY_QUOTA` — no external search or
statistics call is made, `api_quota_used` is unchanged, and nothing is
persisted or dispatched.  The check is per-cycle only: a cycle that starts
below the limit issues all of its calls even when the remaining budget is
smaller than a single call's cost. -/
theorem C2_quota_check (today : Nat) (provider : String → List RawItem)
    (sendOk : String → Bool) (s : MonitorState)
    (hr : s.lastQuotaReset = some today ∨ s.lastQuotaReset = none)
    (hq : MAX_DAILY_QUOTA ≤ s.apiQuotaUsed) :
    (runMonitoringCycle today provider sendOk s).externalCalls = 0 ∧
      (runMonitoringCycle today provider sendOk s).state.apiQuotaUsed =
        s.apiQuotaUsed ∧
      (runMonitoringCycle today provider sendOk s).state.db = s.db ∧
      (runMonitoringCycle today provider sendOk s).dispatchAttempts = [] := by
  have hq0 : quotaAfterReset today s = s.apiQuotaUsed := by
    rcases hr with h | h <;> simp [quotaAfterReset, h]
  rcases runCycle_split today provider sendOk s with ⟨-, he⟩ | ⟨hlt, -⟩
  · rw [he]
    exact ⟨rfl, hq0, rfl, rfl⟩
  · exact absurd (hq0 ▸ hq) hlt

/-- Witness for C2 at a concrete state exactly at the limit. -/
theorem C2_witness :
    (runMonitoringCycle 0 provNone sendNone stMax).externalCalls = 0 ∧
      (runMonitoringCycle 0 provNone sendNone stMax).state.apiQuotaUsed =
        stMax.apiQuotaUsed ∧
      (runMonitoringCycle 0 provNone sendNone stMax).state.db = stMax.db ∧
      (runMonitoringCycle 0 provNone sendNone stMax).dispatchAttempts = [] :=
  C2_quota_check 0 provNone sendNone stMax (Or.inl rfl) (by decide)

/-! ### C3 — spam handling -/

/-- Counterexample to claim C3: running a cycle over a batch consisting of
the spam item `itemSpam0` stores nothing at all (no record with a Discarded
state exists) and writes a `spam_filtered` count of 0 to the day's
statistics row — the spam item is dropped inside `process_video_item`
before persistence, and the cycle's `spam_filtered` counter never counts
it. -/
theorem C3_counterexample :
    (runMonitoringCycle 0 provSpam sendNone st0).state.db = [] ∧
      (runMonitoringCycle 0 provSpam sendNone st0).state.stats.map
        StatsRow.spamFiltered = [0] := by
  refine ⟨by decide, by decide⟩

/-- Claim C3 as amended: an item on which the spam predicate is true is
never classified, scored, or dispatched — `process_video_item` returns
`None` for it before classification — but it is not recorded in storage
(there is no Discarded record) and the cycle's `spam_filtered` counter is
not incremented for it (that counter only counts already-persisted new
videos carrying an `is_spam` flag, which the pipeline never sets). -/
theorem C3_spam_dropped :
    (∀ (wl : List WhitelistEntry) (item : RawItem),
        isSpamContent item.title item.description item.channelTitle =
          SpamResult.ok true →
        processVideoItem wl item = none) ∧
    (∀ (today : Nat) (provider : String → List RawItem)
        (sendOk : String → Bool) (s : MonitorState),
        (∀ kw : String, ∀ item ∈ provider kw,
            isSpamContent item.title item.description item.channelTitle =
              SpamResult.ok true) →
        (runMonitoringCycle today provider sendOk s).state.db = s.db ∧
          (runMonitoringCycle today provider sendOk s).dispatchAttempts = [] ∧
          (runMonitoringCycle today provider sendOk s).spamFilteredCount = 0) := by
  constructor
  · exact fun wl item h => processVideoItem_spam_none wl item h
  · intro today provider sendOk s hall
    have hraw : ∀ (wl : List WhitelistEntry),
        ((priorityKeywords.map provider).flatten).filterMap
          (processVideoItem wl) = [] := by
      intro wl
      rw [List.filterMap_eq_nil_iff]
      intro item hitem
      rw [List.mem_flatten] at hitem
      obtain ⟨l, hl, hmem⟩ := hitem
      rw [List.mem_map] at hl
      obtain ⟨kw, -, rfl⟩ := hl
      exact processVideoItem_spam_none wl item (hall kw item hmem)
    rcases runCycle_split today provider sendOk s with ⟨-, he⟩ | ⟨-, he⟩
    · rw [he]
      exact ⟨rfl, rfl, rfl⟩
    · rw [he]
      have hvideos : (searchTeluguContent s.whitelist provider).videos = [] := by
        rw [searchTeluguContent_videos, hraw]
        rfl
      have hsave : saveVideosToDb s.db
          (searchTeluguContent s.whitelist provider).videos = ⟨s.db, []⟩ := by
        rw [hvideos]
        rfl
      refine ⟨?_, ?_, ?_⟩
      · rw [cycleCore_state_db, hsave]
        rfl
      · rw [cycleCore_attempts, hsave]
        rfl
      · show (saveVideosToDb _ _).newVideos.countP videoIsSpamFlag = 0
        rw [hsave]
        rfl

/-- Witness for C3 at the concrete all-spam provider. -/
theorem C3_witness :
    (runMonitoringCycle 0 provSpam sendNone st0).state.db = st0.db ∧
      (runMonitoringCycle 0 provSpam sendNone st0).dispatchAttempts = [] ∧
      (runMonitoringCycle 0 provSpam sendNone st0).spamFilteredCount = 0 := by
  refine C3_spam_dropped.2 0 provSpam sendNone st0 ?_
  intro kw item hitem
  simp only [provSpam, List.mem_singleton] at hitem
  subst hitem
  decide

/-! ### C1 — cycle idempotence -/

theorem runCycle_noop (today : Nat) (provider : String → List RawItem)
    (sendOk : String → Bool) (s : MonitorState)
    (hcov : ∀ v ∈ (searchTeluguContent s.whitelist provider).videos,
        v.id ∈ dbIds s.db) :
    (runMonitoringCycle today provider sendOk s).state.db = s.db ∧
      (runMonitoringCycle today provider sendOk s).dispatchAttempts = [] := by
  rcases runCycle_split today provider sendOk s with ⟨-, he⟩ | ⟨-, he⟩
  · rw [he]
    exact ⟨rfl, rfl⟩
  · rw [he]
    exact cycleCore_noop today sendOk _ _ (fun v hv => hcov v hv)

/-- Claim C1: running the monitoring cycle a second time with the provider
returning exactly the same raw items leaves the persisted video state
identical to the state after the first run — the second run dispatches
nothing to the notification channel — and no video id is ever inserted
twice (the id column stays duplicate-free after each run).  The second
run's Telegram collaborator may even behave differently. -/
theorem C1_cycle_idempotent (today : Nat) (provider : String → List RawItem)
    (sendOk1 sendOk2 : String → Bool) (s : MonitorState)
    (hnd : (dbIds s.db).Nodup) :
    (runMonitoringCycle today provider sendOk2
        (runMonitoringCycle today provider sendOk1 s).state).state.db =
      (runMonitoringCycle today provider sendOk1 s).state.db ∧
    (runMonitoringCycle today provider sendOk2
        (runMonitoringCycle today provider sendOk1 s).state).dispatchAttempts
      = [] ∧
    (dbIds (runMonitoringCycle today provider sendOk1 s).state.db).Nodup ∧
    (dbIds (runMonitoringCycle today provider sendOk2
        (runMonitoringCycle today provider sendOk1 s).state).state.db).Nodup := by
  rcases runCycle_split today provider sendOk1 s with ⟨hq1, he1⟩ | ⟨hq1, he1⟩
  · have hquota2 : MAX_DAILY_QUOTA ≤
        quotaAfterReset today (runMonitoringCycle today provider sendOk1 s).state := by
      rw [he1]
      simpa [quotaAfterReset] using hq1
    rcases runCycle_split today provider sendOk2
        (runMonitoringCycle today provider sendOk1 s).state with ⟨-, he2⟩ | ⟨hq2, -⟩
    · rw [he2]
      refine ⟨rfl, rfl, ?_, ?_⟩
      · rw [he1]
        exact hnd
      · rw [he1]
        exact hnd
    · exact absurd hquota2 hq2
  · have hnd1 : (dbIds (runMonitoringCycle today provider sendOk1 s).state.db).Nodup := by
      rw [he1]
      exact cycleCore_nodup today sendOk1 _ _ hnd
    have hwl : (runMonitoringCycle today provider sendOk1 s).state.whitelist =
        s.whitelist := by
      rw [he1]
      rfl
    have hcov : ∀ v ∈ (searchTeluguContent s.whitelist provider).videos,
        v.id ∈ dbIds (runMonitoringCycle today provider sendOk1 s).state.db := by
      intro v hv
      rw [he1]
      exact cycleCore_covers today sendOk1 _ _ v hv
    have hr2 := runCycle_noop today provider sendOk2
      (runMonitoringCycle today provider sendOk1 s).state
      (by rw [hwl]; exact hcov)
    exact ⟨hr2.1, hr2.2, hnd1, hr2.1 ▸ hnd1⟩

/-- Witness for C1 at a concrete fresh state and one-item provider. -/
theorem C1_witness :
    (runMonitoringCycle 0 provTrailer sendAll
        (runMonitoringCycle 0 provTrailer sendAll st0).state).state.db =
      (runMonitoringCycle 0 provTrailer sendAll st0).state.db ∧
    (runMonitoringCycle 0 provTrailer sendAll
        (runMonitoringCycle 0 provTrailer sendAll st0).state).dispatchAttempts
      = [] ∧
    (dbIds (runMonitoringCycle 0 provTrailer sendAll st0).state.db).Nodup ∧
    (dbIds (runMonitoringCycle 0 provTrailer sendAll
        (runMonitoringCycle 0 provTrailer sendAll st0).state).state.db).Nodup :=
  C1_cycle_idempotent 0 provTrailer sendAll sendAll st0 (by decide)

/-! ### C6 — auto-post eligibility gate -/

theorem cycleCore_state_stats (today : Nat) (sendOk : String → Bool)
    (s : MonitorState) (sv : SearchOut) :
    (cycleCore today sendOk s sv).state.stats =
      updateMonitoringStats s.stats today sv.videos.length
        (dispatchLoop sendOk (saveVideosToDb s.db sv.videos).db
          (saveVideosToDb s.db sv.videos).newVideos).sent.length 0
        (s.apiQuotaUsed + sv.cost)
        ((saveVideosToDb s.db sv.videos).newVideos.countP videoIsSpamFlag)
        (sv.videos.length - (saveVideosToDb s.db sv.videos).newVideos.length) :=
  rfl

theorem cycleCore_autoSent (today : Nat) (sendOk : String → Bool)
    (s : MonitorState) (sv : SearchOut) :
    (cycleCore today sendOk s sv).autoSent =
      (dispatchLoop sendOk (saveVideosToDb s.db sv.videos).db
        (saveVideosToDb s.db sv.videos).newVideos).sent := rfl

theorem cycleCore_state_quota (today : Nat) (sendOk : String → Bool)
    (s : MonitorState) (sv : SearchOut) :
    (cycleCore today sendOk s sv).state.apiQuotaUsed =
      s.apiQuotaUsed + sv.cost := rfl

/-- Claim C6: every video the monitoring cycle's automatic path attempts to
send to the notification channel has a category whose auto-post eligibility
flag is true; an item whose category rule carries `auto_post = False` is
never auto-dispatched, regardless of its priority. -/
theorem C6_auto_post_gate (today : Nat) (provider : String → List RawItem)
    (sendOk : String → Bool) (s : MonitorState) (w : VideoData)
    (hw : w ∈ (runMonitoringCycle today provider sendOk s).dispatchAttempts) :
    (categorizeContent w.title w.description w.channel).2.2 = true := by
  rcases runCycle_split today provider sendOk s with ⟨-, he⟩ | ⟨-, he⟩
  · rw [he] at hw
    exact absurd hw (List.not_mem_nil w)
  · rw [he, cycleCore_attempts] at hw
    obtain ⟨hmem, hguard⟩ := dispatchLoop_attempts_spec _ _ _ w hw
    have hmem2 := saveVideosToDb_newVideos_sub _ _ w hmem
    rw [searchTeluguContent_videos, mem_sortVideos] at hmem2
    rw [show filterAndDeduplicateVideos
        (((priorityKeywords.map provider).flatten).filterMap
          (processVideoItem s.whitelist)) =
      filterDedupAux
        (((priorityKeywords.map provider).flatten).filterMap
          (processVideoItem s.whitelist)) [] from rfl] at hmem2
    have hmem3 := filterDedupAux_sub _ _ w hmem2
    rw [List.mem_filterMap] at hmem3
    obtain ⟨item, -, hproc⟩ := hmem3
    obtain ⟨ht, hd, hc, -, hauto, -⟩ := processVideoItem_fields _ item w hproc
    have hap : w.autoPost = true := (Bool.and_eq_true _ _ |>.mp hguard).2
    rw [hauto] at hap
    rw [ht, hd, hc]
    exact (Bool.and_eq_true _ _ |>.mp hap).1

set_option maxRecDepth 400000 in
/-- Witness for C6: a concrete cycle that auto-dispatches the trailer item;
the dispatched video's category is auto-eligible. -/
theorem C6_witness :
    (categorizeContent
      ((runMonitoringCycle 0 provTrailer sendAll st0).dispatchAttempts.getD 0
        vd0).title
      ((runMonitoringCycle 0 provTrailer sendAll st0).dispatchAttempts.getD 0
        vd0).description
      ((runMonitoringCycle 0 provTrailer sendAll st0).dispatchAttempts.getD 0
        vd0).channel).2.2 = true :=
  C6_auto_post_gate 0 provTrailer sendAll st0 _ (by decide)

/-! ### C4 — within-batch duplicates -/

set_option maxRecDepth 400000 in
/-- Counterexample to claim C4: a batch consisting of the same raw item
twice (duplicate provider page) yields a day's `duplicates_filtered`
statistic of 0, not 1 — `run_monitoring_cycle` computes that statistic as
`len(videos) - len(new_videos)` over the already-deduplicated list, so
within-batch duplicates are never counted (only ids already present in
storage are).  Classification also happens before the duplicate is
dropped, not after: `process_video_item` categorizes each raw occurrence
and `filter_and_deduplicate_videos` only runs afterwards. -/
theorem C4_counterexample :
    (runMonitoringCycle 0 provDup sendNone st0).state.stats.map
        StatsRow.duplicatesFiltered = [0] ∧ (0 : Nat) ≠ 1 := by
  refine ⟨by decide, by decide⟩

/-- Claim C4 as amended: for a batch that is exactly one raw item repeated
twice, the second occurrence is dropped by the fingerprint deduplication
(after classification, before persistence), the persisted record count for
that id increases by exactly 1, and the `duplicates_filtered` statistic
written for the cycle is 0 (it counts only cross-cycle id duplicates). -/
theorem C4_batch_duplicate (today : Nat) (provider : String → List RawItem)
    (sendOk : String → Bool) (s : MonitorState) (r : RawItem) (v : VideoData)
    (hbatch : (priorityKeywords.map provider).flatten = [r, r])
    (hp : processVideoItem s.whitelist r = some v)
    (hnew : v.id ∉ dbIds s.db)
    (hq : quotaAfterReset today s < MAX_DAILY_QUOTA) :
    (runMonitoringCycle today provider sendOk s).state.db.countP
        (fun row => row.id == v.id) = 1 ∧
    (runMonitoringCycle today provider sendOk s).state.stats =
      updateMonitoringStats s.stats today 1
        (runMonitoringCycle today provider sendOk s).autoSent.length 0
        (runMonitoringCycle today provider sendOk s).state.apiQuotaUsed 0 0 := by
  rcases runCycle_split today provider sendOk s with ⟨hge, -⟩ | ⟨-, he⟩
  · exact absurd hge (not_le.mpr hq)
  · have hvid : (searchTeluguContent s.whitelist provider).videos = [v] := by
      rw [searchTeluguContent_videos, hbatch]
      rw [show List.filterMap (processVideoItem s.whitelist) [r, r] = [v, v] by
        simp [List.filterMap_cons, hp]]
      simp [filterAndDeduplicateVideos, filterDedupAux, sortVideos,
        insertByQuality]
    have hanyf : s.db.any (fun row => row.id == v.id) = false := by
      cases hany : s.db.any (fun row => row.id == v.id)
      · rfl
      · exact absurd ((dbIds_any_iff s.db v.id).mp hany) hnew
    have hsave : saveVideosToDb s.db [v] = ⟨s.db ++ [insertRow v], [v]⟩ := by
      simp [saveVideosToDb, hanyf]
    constructor
    · rw [he, cycleCore_state_db, hvid, hsave]
      have hcid : ∀ db2 : List DbVideo,
          db2.countP (fun row => row.id == v.id) =
            (dbIds db2).countP (fun x => x == v.id) := by
        intro db2
        rw [dbIds, List.countP_map]
        rfl
      rw [hcid, dispatchLoop_dbIds]
      have hids : dbIds (s.db ++ [insertRow v]) = dbIds s.db ++ [v.id] := by
        simp [dbIds, insertRow]
      rw [hids, List.countP_append]
      have h0 : (dbIds s.db).countP (fun x => x == v.id) = 0 := by
        rw [List.countP_eq_zero]
        intro x hx hbeq
        exact hnew (by rwa [show x = v.id from by simpa using hbeq] at hx)
      rw [h0]
      simp
    · rw [he, cycleCore_state_stats, cycleCore_autoSent, cycleCore_state_quota,
          hvid, hsave]
      rfl

set_option maxRecDepth 400000 in
/-- Witness for C4 at the concrete duplicated-trailer batch over a fresh
state. -/
theorem C4_witness :
    (runMonitoringCycle 0 (provTwice itemTrailer0) sendNone st0).state.db.countP
        (fun row => row.id == ((processVideoItem [] itemTrailer0).getD vd0).id)
      = 1 ∧
    (runMonitoringCycle 0 (provTwice itemTrailer0) sendNone st0).state.stats =
      updateMonitoringStats st0.stats 0 1
        (runMonitoringCycle 0 (provTwice itemTrailer0) sendNone st0).autoSent.length
        0
        (runMonitoringCycle 0 (provTwice itemTrailer0)
          sendNone st0).state.apiQuotaUsed 0 0 :=
  C4_batch_duplicate 0 (provTwice itemTrailer0) sendNone st0 itemTrailer0
    ((processVideoItem [] itemTrailer0).getD vd0)
    (by decide) (by decide) (by decide) (by decide)

/-! ### C7 — fingerprint function -/

theorem md5Bytes_length (msg : List Nat) : (md5Bytes msg).length = 16 := by
  simp [md5Bytes, leBytes4]

theorem md5Bytes_lt (msg : List Nat) (b : Nat) (hb : b ∈ md5Bytes msg) :
    b < 256 := by
  have h4 : ∀ w : Nat, ∀ x ∈ leBytes4 w, x < 256 := by
    intro w x hx
    simp only [leBytes4, List.mem_cons, List.not_mem_nil, or_false] at hx
    rcases hx with rfl | rfl | rfl | rfl <;> exact Nat.mod_lt _ (by norm_num)
  simp only [md5Bytes, List.mem_append] at hb
  rcases hb with ((hb | hb) | hb) | hb <;> exact h4 _ _ hb

/-- Counterexample to claim C7: the digest is a fixed-width 128-bit MD5, so
fingerprints cannot differ for *all* pairs of distinct source identifiers
sharing a normalized title — by the pigeonhole principle there exist two
distinct source ids whose fingerprints (over the same normalized title)
collide. -/
theorem C7_counterexample :
    ∃ s1 s2 : String, s1 ≠ s2 ∧
      generateDuplicateHash "heros official trailer" s1 =
        generateDuplicateHash "heros official trailer" s2 := by
  have hmain : ∃ s1 s2 : String, s1 ≠ s2 ∧
      md5Bytes (strToBytes
          (normalizeTitle "heros official trailer" ++ "_" ++ s1)) =
        md5Bytes (strToBytes
          (normalizeTitle "heros official trailer" ++ "_" ++ s2)) := by
    obtain ⟨s1, s2, hne, hfe⟩ := Finite.exists_ne_map_eq_of_infinite
      (fun sid : String => fun i : Fin 16 =>
        (⟨(md5Bytes (strToBytes
            (normalizeTitle "heros official trailer" ++ "_" ++ sid))).getD i 0
              % 256,
          Nat.mod_lt _ (by norm_num)⟩ : Fin 256))
    refine ⟨s1, s2, hne, ?_⟩
    apply List.ext_getElem
    · rw [md5Bytes_length, md5Bytes_length]
    · intro n h1 h2
      have hn : n < 16 := by rwa [md5Bytes_length] at h1
      have hv := congrArg Fin.val (congrFun hfe ⟨n, hn⟩)
      simp only at hv
      rw [List.getD_eq_getElem _ _ h1, List.getD_eq_getElem _ _ h2] at hv
      rwa [Nat.mod_eq_of_lt (md5Bytes_lt _ _ (List.getElem_mem h1)),
           Nat.mod_eq_of_lt (md5Bytes_lt _ _ (List.getElem_mem h2))] at hv
  obtain ⟨s1, s2, hne, hbytes⟩ := hmain
  refine ⟨s1, s2, hne, ?_⟩
  unfold generateDuplicateHash md5Hex
  rw [hbytes]

set_option maxRecDepth 400000 in
/-- Claim C7 as amended: the fingerprint lower-cases the title, strips
non-word characters, collapses whitespace, appends the source id and takes
the fixed-width (32 hex character) MD5 digest; the stated example equality
holds, and two distinct source identifiers with the same normalized title
always produce distinct *digest inputs* (so their fingerprints differ
whenever the fixed-width digest does not collide on them). -/
theorem C7_fingerprint :
    generateDuplicateHash "Hero\x27s Official TRAILER!!" "src1" =
      generateDuplicateHash "heros official trailer" "src1" ∧
    (∀ t1 t2 s1 s2 : String, normalizeTitle t1 = normalizeTitle t2 →
      s1 ≠ s2 →
      normalizeTitle t1 ++ "_" ++ s1 ≠ normalizeTitle t2 ++ "_" ++ s2) ∧
    (∀ t sid : String, (generateDuplicateHash t sid).length = 32) := by
  refine ⟨by decide, ?_, ?_⟩
  · intro t1 t2 s1 s2 hnorm hne heq
    rw [hnorm] at heq
    apply hne
    have hd := congrArg String.data heq
    simp only [String.data_append] at hd
    exact String.ext (List.append_cancel_left hd)
  · intro t sid
    show (((md5Bytes (strToBytes
        (normalizeTitle t ++ "_" ++ sid))).map byteToHex).flatten).length = 32
    have hlen : ∀ bs : List Nat, ((bs.map byteToHex).flatten).length =
        2 * bs.length := by
      intro bs
      induction bs with
      | nil => rfl
      | cons b tl ih =>
        simp only [List.map_cons, List.flatten_cons, List.length_append, ih,
          byteToHex, List.length_cons, List.length_nil]
        omega
    rw [hlen, md5Bytes_length]

/-- Witness for C7: two concrete distinct source ids give distinct digest
inputs for the same normalized title. -/
theorem C7_witness :
    normalizeTitle "heros official trailer" ++ "_" ++ "src1" ≠
      normalizeTitle "heros official trailer" ++ "_" ++ "src2" :=
  C7_fingerprint.2.1 "heros official trailer" "heros official trailer"
    "src1" "src2" rfl (by decide)
